import Mathlib

/-!
Verification of the response-normalization and conversation-lifecycle core of
the chatbot backend.

The embedding mirrors, definition by definition:
  - backend/api/model_serving_utils.py : clean_and_format_content,
    format_numbered_steps, and the response handling of the private
    endpoint-query helper for agent and chat-completion task types;
  - backend/api/app_databricks.py : query_llm, the chat endpoint, and the
    in-memory mock conversation store;
  - backend/services/conversation_service.py : get_user_conversations and the
    request layer around it;
  - backend/services/postgres_auth_service.py : the conversation-limit
    enforcement and conversation creation.

Python dict/list/str payloads are modelled by the inductive type PyVal;
machine strings are Lean String values (Python 3 strings are sequences of
code points, as are Lean strings).  Recursions over character lists take an
explicit fuel argument equal to the input length; every step consumes at
least one character, so the fuel never runs out on the calls the code makes.
-/

/-- PyVal models the JSON-like Python values that flow through the response
normalizer: strings, lists, and string-keyed dicts (association lists in
insertion order, keys unique as in a Python dict). -/
inductive PyVal where
  | str (s : String)
  | list (xs : List PyVal)
  | dict (kvs : List (String × PyVal))

/-- Single-quote character, used when rendering Python repr output. -/
def sqC : Char := Char.ofNat 39

/-- Double-quote character. -/
def dqC : Char := Char.ofNat 34

/-- Escapes one character the way Python repr renders it inside a
single-quoted string literal. -/
def pyReprEscape (c : Char) : List Char :=
  if c = '\\' then ['\\', '\\']
  else if c = sqC then ['\\', sqC]
  else if c = '\n' then ['\\', 'n']
  else if c = '\r' then ['\\', 'r']
  else if c = '\t' then ['\\', 't']
  else [c]

/-- Python repr of a string: double quotes when the string holds a single
quote but no double quote, otherwise single quotes with escaping. -/
def pyReprStr (s : String) : String :=
  if s.data.contains sqC && !(s.data.contains dqC) then
    String.mk (dqC :: s.data ++ [dqC])
  else
    String.mk (sqC :: (s.data.map pyReprEscape).flatten ++ [sqC])

/-- Comma-separated rendering used by Python repr for containers. -/
def joinComma (parts : List String) : String :=
  String.intercalate ", " parts

mutual
/-- Python repr of a PyVal. -/
def pyRepr : PyVal → String
  | .str s => pyReprStr s
  | .list xs => "[" ++ joinComma (pyReprList xs) ++ "]"
  | .dict kvs => "\x7b" ++ joinComma (pyReprKVs kvs) ++ "\x7d"

/-- Python repr of the elements of a list value. -/
def pyReprList : List PyVal → List String
  | [] => []
  | x :: xs => pyRepr x :: pyReprList xs

/-- Python repr of the key-value pairs of a dict value. -/
def pyReprKVs : List (String × PyVal) → List String
  | [] => []
  | (k, v) :: xs => (pyReprStr k ++ ": " ++ pyRepr v) :: pyReprKVs xs
end

/-- Python str() of a PyVal: the string itself for strings, repr for
containers. -/
def pyStr : PyVal → String
  | .str s => s
  | v => pyRepr v

/-- Python truthiness of a PyVal: empty strings, lists and dicts are falsy. -/
def pyTruthy : PyVal → Bool
  | .str s => s ≠ ""
  | .list xs => !xs.isEmpty
  | .dict kvs => !kvs.isEmpty

/-- Dict lookup, mirroring Python `d[k]` / `k in d` on a dict with unique
keys (first matching key wins). -/
def dget (kvs : List (String × PyVal)) (k : String) : Option PyVal :=
  (kvs.find? (fun kv => kv.1 = k)).map (·.2)

/-! Character classes of the Python regexes used by the cleanup pipeline. -/

/-- Python regex whitespace class over ASCII: space, tab, newline, carriage
return, vertical tab, form feed; also the set stripped by str.strip(). -/
def isPySpace (c : Char) : Bool :=
  c = ' ' || c = '\t' || c = '\n' || c = '\r' || c = Char.ofNat 11 || c = Char.ofNat 12

/-- Character class of a reference-marker id: ASCII letters, digits, hyphen. -/
def isRefChar (c : Char) : Bool :=
  c.isAlphanum || c = '-'

/-- Python str.strip(): drop leading and trailing whitespace. -/
def pyStripL (cs : List Char) : List Char :=
  ((cs.dropWhile isPySpace).reverse.dropWhile isPySpace).reverse

/-- Removal of reference markers, modelling
re.sub of the pattern (open bracket, caret, one or more id characters,
close bracket) with the empty string, scanning left to right. -/
def removeRefs : Nat → List Char → List Char
  | 0, cs => cs
  | _ + 1, [] => []
  | fuel + 1, '[' :: rest =>
      match rest with
      | '^' :: rest2 =>
          let run := rest2.takeWhile isRefChar
          if run.isEmpty then '[' :: removeRefs fuel rest
          else
            match rest2.drop run.length with
            | ']' :: rest3 => removeRefs fuel rest3
            | _ => '[' :: removeRefs fuel rest
      | _ => '[' :: removeRefs fuel rest
  | fuel + 1, c :: rest => c :: removeRefs fuel rest

/-- Number of characters up to and including the last newline of a list
(zero when it has no newline). -/
def afterLastNl (l : List Char) : Nat :=
  l.length - (l.reverse.takeWhile (fun c => c ≠ '\n')).length

/-- Collapsing of newline runs, modelling re.sub of the pattern
(newline, whitespace run, newline, whitespace run, newline) with two
newlines.  A leftmost greedy match starts at a newline whose following
maximal whitespace run holds at least two more newlines and extends through
the last newline of that run. -/
def collapseNl : Nat → List Char → List Char
  | 0, cs => cs
  | _ + 1, [] => []
  | fuel + 1, '\n' :: rest =>
      let run := rest.takeWhile isPySpace
      if 2 ≤ (run.filter (fun c => c = '\n')).length then
        '\n' :: '\n' :: collapseNl fuel (rest.drop (afterLastNl run))
      else '\n' :: collapseNl fuel rest
  | fuel + 1, c :: rest => c :: collapseNl fuel rest

/-- Collapsing of space runs, modelling re.sub of one-or-more spaces with a
single space. -/
def collapseSpaces : Nat → List Char → List Char
  | 0, cs => cs
  | _ + 1, [] => []
  | fuel + 1, ' ' :: rest => ' ' :: collapseSpaces fuel (rest.dropWhile (fun c => c = ' '))
  | fuel + 1, c :: rest => c :: collapseSpaces fuel rest

/-- Python str.split on a newline separator (an empty input gives one empty
field, a trailing separator gives a trailing empty field). -/
def splitOnNl : Nat → List Char → List (List Char)
  | 0, cs => [cs]
  | fuel + 1, cs =>
      let pre := cs.takeWhile (fun c => c ≠ '\n')
      match cs.drop pre.length with
      | [] => [pre]
      | _ :: rest => pre :: splitOnNl fuel rest

/-- Python newline join of split lines. -/
def joinNl (lines : List (List Char)) : List Char :=
  (lines.intersperse ['\n']).flatten

/-- Step pattern 1: digits, a dot and whitespace anchored at line start,
rewritten to digits, dot, one space. -/
def stepSub1 (line : List Char) : List Char :=
  let ds := line.takeWhile Char.isDigit
  if ds.isEmpty then line
  else
    match line.drop ds.length with
    | '.' :: rest =>
        let ws := rest.takeWhile isPySpace
        if ws.isEmpty then line
        else ds ++ '.' :: ' ' :: rest.drop ws.length
    | _ => line

/-- Step pattern 2: the word Step, whitespace, digits, a colon and optional
whitespace anchored at line start, rewritten to digits, dot, one space. -/
def stepSub2 (line : List Char) : List Char :=
  match line with
  | 'S' :: 't' :: 'e' :: 'p' :: rest =>
      let ws := rest.takeWhile isPySpace
      if ws.isEmpty then line
      else
        let rest2 := rest.drop ws.length
        let ds := rest2.takeWhile Char.isDigit
        if ds.isEmpty then line
        else
          match rest2.drop ds.length with
          | ':' :: rest3 => ds ++ '.' :: ' ' :: rest3.dropWhile isPySpace
          | _ => line
  | _ => line

/-- Step pattern 3: digits, a closing parenthesis and whitespace anchored at
line start, rewritten to digits, dot, one space. -/
def stepSub3 (line : List Char) : List Char :=
  let ds := line.takeWhile Char.isDigit
  if ds.isEmpty then line
  else
    match line.drop ds.length with
    | ')' :: rest =>
        let ws := rest.takeWhile isPySpace
        if ws.isEmpty then line
        else ds ++ '.' :: ' ' :: rest.drop ws.length
    | _ => line

/-- Step pattern 4: a bullet, optional whitespace, digits, a dot and
whitespace, anywhere in the line, rewritten to digits, dot, one space. -/
def stepSub4 : Nat → List Char → List Char
  | 0, cs => cs
  | _ + 1, [] => []
  | fuel + 1, '•' :: rest =>
      let ws := rest.takeWhile isPySpace
      let rest2 := rest.drop ws.length
      let ds := rest2.takeWhile Char.isDigit
      if ds.isEmpty then '•' :: stepSub4 fuel rest
      else
        match rest2.drop ds.length with
        | '.' :: rest3 =>
            let ws2 := rest3.takeWhile isPySpace
            if ws2.isEmpty then '•' :: stepSub4 fuel rest
            else ds ++ '.' :: ' ' :: stepSub4 fuel (rest3.drop ws2.length)
        | _ => '•' :: stepSub4 fuel rest
  | fuel + 1, c :: rest => c :: stepSub4 fuel rest

/-- Step pattern 5: a hyphen, optional whitespace, digits, a dot and
whitespace, anywhere in the line, rewritten to digits, dot, one space. -/
def stepSub5 : Nat → List Char → List Char
  | 0, cs => cs
  | _ + 1, [] => []
  | fuel + 1, '-' :: rest =>
      let ws := rest.takeWhile isPySpace
      let rest2 := rest.drop ws.length
      let ds := rest2.takeWhile Char.isDigit
      if ds.isEmpty then '-' :: stepSub5 fuel rest
      else
        match rest2.drop ds.length with
        | '.' :: rest3 =>
            let ws2 := rest3.takeWhile isPySpace
            if ws2.isEmpty then '-' :: stepSub5 fuel rest
            else ds ++ '.' :: ' ' :: stepSub5 fuel (rest3.drop ws2.length)
        | _ => '-' :: stepSub5 fuel rest
  | fuel + 1, c :: rest => c :: stepSub5 fuel rest

/-- Application of the five step patterns, in order, to one line; the first
three are anchored at the line start (no MULTILINE flag is set, so they can
never fire mid-line), the last two apply at every position. -/
def formatLine (line : List Char) : List Char :=
  let l1 := stepSub1 line
  let l2 := stepSub2 l1
  let l3 := stepSub3 l2
  let l4 := stepSub4 l3.length l3
  stepSub5 l4.length l4

/-- Model of format_numbered_steps: split into lines, reformat step markers
line by line, and rejoin. -/
def formatNumberedSteps (cs : List Char) : List Char :=
  joinNl ((splitOnNl cs.length cs).map formatLine)

/-- Fix of a leading colon on one line: when the stripped line starts with a
colon, the line becomes the stripped remainder after the colon, otherwise
the line is kept untouched. -/
def colonFixLine (line : List Char) : List Char :=
  let s := pyStripL line
  match s with
  | ':' :: rest => pyStripL rest
  | _ => line

/-- Model of clean_and_format_content on a string: remove reference markers,
collapse newline runs and space runs, strip, reformat numbered steps, then
fix leading colons per line. -/
def cleanAndFormatL (cs : List Char) : List Char :=
  let c1 := removeRefs cs.length cs
  let c2 := collapseNl c1.length c1
  let c3 := collapseSpaces c2.length c2
  let c4 := pyStripL c3
  let c5 := formatNumberedSteps c4
  joinNl ((splitOnNl c5.length c5).map colonFixLine)

/-- String-level wrapper of the cleanup pipeline. -/
def cleanAndFormatStr (s : String) : String :=
  String.mk (cleanAndFormatL s.data)

/-- Model of clean_and_format_content on an arbitrary value: non-strings are
first converted with str(). -/
def clean_and_format_content (v : PyVal) : String :=
  cleanAndFormatStr (pyStr v)

/-! Response extraction of the endpoint-query helper in model_serving_utils. -/

/-- SdkResponse models the object returned by the serving-endpoint client as
the extraction code sees it: an optional predictions payload (absent models
a missing attribute) and the str() rendering of the whole response object. -/
structure SdkResponse where
  predictions : Option PyVal
  reprStr : String

/-- Needle probed by the agent-path cleanup, the eight characters of
(t, e, x, t, quote, colon, space, quote). -/
def needleTQ : List Char := ['t', 'e', 'x', 't', sqC, ':', ' ', sqC]

/-- Containment test for the needle, mirroring the Python in-operator. -/
def containsTQ : List Char → Bool
  | [] => false
  | cs@(_ :: rest) => needleTQ.isPrefixOf cs || containsTQ rest

/-- Group match attempted right after an occurrence of the needle.  The
pattern body is a greedy run of non-quote characters followed by an escaped
quote alternative and a closing quote; the greedy run already consumes any
backslash, so the starred alternative never fires and the group is the
non-quote run, matching only when one more quote follows it. -/
def groupScanTQ (cs : List Char) : Option (List Char) :=
  let chunk := cs.takeWhile (fun c => c ≠ sqC)
  match cs.drop chunk.length with
  | [] => none
  | _ :: _ => some chunk

/-- Leftmost search for the needle followed by a successful group match,
mirroring re.search of the text-extraction pattern. -/
def searchTQ : List Char → Option (List Char)
  | [] => none
  | cs@(_ :: rest) =>
      if needleTQ.isPrefixOf cs then
        match groupScanTQ (cs.drop needleTQ.length) with
        | some g => some g
        | none => searchTQ rest
      else searchTQ rest

/-- Agent-path cleanup of an extracted string: when the needle occurs, a
successful search replaces the content by the captured group; then the
shared cleanup pipeline runs. -/
def agentCleanStr (s : String) : String :=
  let cs := s.data
  let cs1 :=
    if containsTQ cs then
      match searchTQ cs with
      | some g => g
      | none => cs
    else cs
  String.mk (cleanAndFormatL cs1)

/-- Text fragments collected from the content array of an agent output item:
dict fragments contribute their text value (whatever type it has), bare
strings contribute themselves, all other fragments are skipped. -/
def collectTexts : List PyVal → List PyVal
  | [] => []
  | (.dict cd) :: rest =>
      match dget cd "text" with
      | some t => t :: collectTexts rest
      | none => collectTexts rest
  | (.str s) :: rest => .str s :: collectTexts rest
  | _ :: rest => collectTexts rest

/-- All-strings view of a fragment list, none when some fragment is not a
string (the Python join then raises TypeError). -/
def asStrings : List PyVal → Option (List String)
  | [] => some []
  | (.str s) :: rest => (asStrings rest).map (fun ss => s :: ss)
  | _ :: _ => none

/-- Space join of the fragments; a non-string fragment raises. -/
def joinParts (parts : List PyVal) : Except Unit PyVal :=
  match asStrings parts with
  | some ss => .ok (.str (String.intercalate " " ss))
  | none => .error ()

/-- First item of the output array when the output key maps to a nonempty
list, mirroring the guard of the agent extraction. -/
def outputHead (d : List (String × PyVal)) : Option PyVal :=
  match dget d "output" with
  | some (.list (x :: _)) => some x
  | _ => none

/-- Content extracted from one agent output item. -/
def agentItemContent (oi : PyVal) : Except Unit PyVal :=
  match oi with
  | .dict od =>
      match dget od "content" with
      | some (.list (c :: cs)) =>
          let parts := collectTexts (c :: cs)
          if parts.isEmpty then .ok (.str (pyStr oi)) else joinParts parts
      | _ => .ok (.str (pyStr oi))
  | _ => .ok (.str (pyStr oi))

/-- Raw content computed by the agent branch of the endpoint-query helper
before cleanup; an error value models an exception reaching the except
handler of that branch. -/
def agentExtract (res : SdkResponse) : Except Unit PyVal :=
  match res.predictions with
  | some p =>
      if pyTruthy p then
        match p with
        | .dict d =>
            match outputHead d with
            | some oi => agentItemContent oi
            | none =>
                match dget d "response" with
                | some v => .ok v
                | none =>
                    match dget d "content" with
                    | some v => .ok v
                    | none => .ok (.str (pyStr p))
        | _ => .ok (.str (pyStr p))
      else .ok (.str res.reprStr)
  | none => .ok (.str res.reprStr)

/-- Messages returned by the agent branch: string content goes through the
agent cleanup and the shared pipeline, non-string content is returned as is,
and an exception falls back to the str() of the response. -/
def processAgentRes (res : SdkResponse) : List (String × PyVal) :=
  match agentExtract res with
  | .error _ => [("assistant", .str res.reprStr)]
  | .ok (.str s) => [("assistant", .str (agentCleanStr s))]
  | .ok content => [("assistant", content)]

/-- Python subscript zero on a value: first element of a nonempty list,
one-character string of a nonempty string, an exception otherwise (KeyError
on a dict whose keys are strings, IndexError on empty sequences). -/
def pyIndex0 : PyVal → Except Unit PyVal
  | .list (x :: _) => .ok x
  | .list [] => .error ()
  | .str s =>
      match s.data with
      | c :: _ => .ok (.str (String.mk [c]))
      | [] => .error ()
  | .dict _ => .error ()

/-- Content computed by the chat-completion branch of the endpoint-query
helper; an error models an exception reaching the except handler. -/
def chatContent (res : SdkResponse) : Except Unit PyVal :=
  match res.predictions with
  | some p =>
      if pyTruthy p then
        match pyIndex0 p with
        | .error e => .error e
        | .ok pred =>
            match pred with
            | .dict pd =>
                match dget pd "choices" with
                | some (.list cl) =>
                    match cl with
                    | [] => .error ()
                    | choice :: _ =>
                        match choice with
                        | .dict chd =>
                            match dget chd "message" with
                            | some (.dict md) =>
                                match dget md "content" with
                                | some c => .ok (.str (clean_and_format_content c))
                                | none => .ok (.str (pyStr (.dict md)))
                            | some msg => .ok (.str (pyStr msg))
                            | none => .ok (.str (pyStr choice))
                        | _ => .ok (.str (pyStr choice))
                | _ =>
                    match dget pd "response" with
                    | some v => .ok (.str (clean_and_format_content v))
                    | none =>
                        match dget pd "content" with
                        | some v => .ok (.str (clean_and_format_content v))
                        | none => .ok (.str (pyStr pred))
            | _ => .ok (.str (pyStr pred))
      else .ok (.str res.reprStr)
  | none => .ok (.str res.reprStr)

/-- Messages returned by the chat-completion branch, with the except handler
falling back to the str() of the response. -/
def processChatRes (res : SdkResponse) : List (String × PyVal) :=
  match chatContent res with
  | .ok c => [("assistant", c)]
  | .error _ => [("assistant", .str res.reprStr)]

/-- Task type of agent endpoints. -/
def agentTaskType : String := "agent/v1/responses"

/-- Response normalization of the endpoint-query helper: the agent task type
selects the agent branch, every other task type the chat-completion branch. -/
def queryNormalize (taskType : String) (res : SdkResponse) : List (String × PyVal) :=
  if taskType = agentTaskType then processAgentRes res else processChatRes res

/-- Content string of a normalized reply when it is a single assistant
message with string content. -/
def msgText (msgs : List (String × PyVal)) : Option String :=
  match msgs with
  | [(role, .str s)] => if role = "assistant" then some s else none
  | _ => none

/-! Chat-send path of app_databricks: query_llm and the chat endpoint. -/

/-- Python str.strip() on a String. -/
def pyStripStr (s : String) : String :=
  String.mk (pyStripL s.data)

/-- Model of query_llm.  The outcome argument stands for the awaited
endpoint call: ok carries the content field of the returned message, error
carries the text of the exception it raised.  An empty message short
circuits; an exception is caught and rendered as an error-prefixed string. -/
def query_llm (message : String) (outcome : Except String String) : String :=
  if pyStripStr message = "" then "ERROR: The question should not be empty"
  else
    match outcome with
    | .ok content => content
    | .error e => "Error: " ++ e

/-- Result of the chat endpoint: either a normal JSON reply carrying a
response string, or an HTTP error status. -/
inductive ChatResult where
  | reply (s : String)
  | httpError (code : Nat)
deriving DecidableEq

/-- Model of the chat endpoint: an empty message raises a 400; otherwise
the reply wraps the query_llm result.  The except handler of the endpoint
(a fixed apology reply) is unreachable on the LLM path because query_llm
catches every endpoint exception itself. -/
def chat_endpoint (message : String) (outcome : Except String String) : ChatResult :=
  if pyStripStr message = "" then .httpError 400
  else .reply (query_llm message outcome)

/-! In-memory mock conversation store of app_databricks.  The module-level
storage dict (conversation id mapped to record, insertion ordered, unique
ids) is modelled as a list of records in insertion order.  Records are
polymorphic in the message payload type. -/

/-- Conversation record of the in-memory store. -/
structure MConv (μ : Type) where
  id : String
  title : String
  user_email : String
  messages : List μ
  created_at : String
  updated_at : String
deriving DecidableEq

/-- Assignment into the storage dict: replace the record holding the same
id, or append when the id is new. -/
def dictSet {μ : Type} (st : List (MConv μ)) (c : MConv μ) : List (MConv μ) :=
  if st.any (fun x => x.id = c.id) then
    st.map (fun x => if x.id = c.id then c else x)
  else st ++ [c]

/-- Model of mock_create_conversation: build the record with equal creation
and update stamps and assign it into the dict.  The Python body defaults a
missing message list to the empty list; a passed list value is stored
unchanged (an or-default on a list returns the list itself, also when it is
empty). -/
def mockCreateConversation {μ : Type} (st : List (MConv μ)) (email title : String)
    (msgs : List μ) (cid now : String) : MConv μ × List (MConv μ) :=
  let c : MConv μ :=
    { id := cid, title := title, user_email := email, messages := msgs,
      created_at := now, updated_at := now }
  (c, dictSet st c)

/-- Model of mock_update_conversation: look the id up, require the exact
owner email, overwrite the optional fields, refresh updated_at, store the
record back; a missing id or an owner mismatch returns none and leaves the
store untouched. -/
def mockUpdateConversation {μ : Type} (st : List (MConv μ)) (cid email : String)
    (title : Option String) (msgs : Option (List μ)) (now : String) :
    Option (MConv μ) × List (MConv μ) :=
  match st.find? (fun c => c.id = cid) with
  | none => (none, st)
  | some conv =>
      if conv.user_email ≠ email then (none, st)
      else
        let conv' : MConv μ :=
          { conv with
            title := title.getD conv.title,
            messages := msgs.getD conv.messages,
            updated_at := now }
        (some conv', dictSet st conv')

/-- Lexicographic code-point order on character lists, the order Python uses
to compare strings. -/
def lexLe : List Char → List Char → Bool
  | [], _ => true
  | _ :: _, [] => false
  | a :: as, b :: bs =>
      if a = b then lexLe as bs else decide (a < b)

/-- Python string comparison. -/
def strLeB (a b : String) : Bool :=
  lexLe a.data b.data

/-- Model of mock_get_user_conversations: filter the storage values by
owner and stable-sort by updated_at descending (the Python reverse sort is
stable, modelled by a stable insertion sort on the reversed comparison). -/
def mockGetUserConversations {μ : Type} (st : List (MConv μ)) (email : String) :
    List (MConv μ) :=
  List.insertionSort (fun a b => strLeB b.updated_at a.updated_at = true)
    (st.filter (fun c => c.user_email = email))

/-- Model of mock_delete_conversation: delete the id when it exists under
exactly that owner, report whether a record was removed. -/
def mockDeleteConversation {μ : Type} (st : List (MConv μ)) (cid email : String) :
    Bool × List (MConv μ) :=
  match st.find? (fun c => c.id = cid) with
  | none => (false, st)
  | some conv =>
      if conv.user_email ≠ email then (false, st)
      else (true, st.filter (fun c => c.id ≠ cid))

/-- Emptiness test applied by the cleanup: the record is owned by the email
and its message list has zero length. -/
def isEmptyConvOf {μ : Type} (email : String) (c : MConv μ) : Bool :=
  c.user_email = email && c.messages.isEmpty

/-- Model of mock_cleanup_empty_conversations: collect the ids of the owned
conversations with an empty message list, delete each collected id from the
dict, and return how many ids were collected together with the new store. -/
def mockCleanupEmptyConversations {μ : Type} (st : List (MConv μ)) (email : String) :
    Nat × List (MConv μ) :=
  let emptyIds := (st.filter (isEmptyConvOf email)).map (fun c => c.id)
  (emptyIds.length, st.filter (fun c => !emptyIds.contains c.id))

/-! List path of conversation_service and its request layer. -/

/-- Outcome of the durable-tier work inside the service list operation:
the owning user may be missing, the query may produce rows, or the store
may raise. -/
inductive ListOutcome (α : Type) where
  | userMissing
  | rows (l : List α)
  | raised (e : String)

/-- Model of get_user_conversations in conversation_service: the body
returns the empty list for an unknown user and the queried rows otherwise;
the surrounding handler catches every store exception and returns the empty
list, so the function itself never raises. -/
def conversationServiceList {α : Type} (o : ListOutcome α) : Except String (List α) :=
  let body : Except String (List α) :=
    match o with
    | .userMissing => .ok []
    | .rows l => .ok l
    | .raised e => .error e
  match body with
  | .ok l => .ok l
  | .error _ => .ok []

/-- Model of the GET conversations handler: it calls the service inside a
try block whose except branch serves the volatile in-memory store instead
(filtered by owner and sorted by updated_at descending). -/
def appGetConversations {μ : Type} (o : ListOutcome (MConv μ))
    (volatile : List (MConv μ)) (email : String) : List (MConv μ) :=
  match conversationServiceList o with
  | .ok l => l
  | .error _ => mockGetUserConversations volatile email

/-! Conversation-limit enforcement of postgres_auth_service. -/

/-- Conversation row as the limit-enforcement code reads it from the
database service; the update stamp may be null, in which case the sort key
falls back to the creation stamp. -/
structure PConv where
  id : String
  uid : String
  title : String
  created_at : Nat
  updated_at : Option Nat
deriving DecidableEq

/-- Sort key of the limit enforcement: updated_at when set, created_at
otherwise. -/
def sortKeyP (c : PConv) : Nat :=
  c.updated_at.getD c.created_at

/-- Rows of one user, as returned by the database-service query. -/
def userConvsP (st : List PConv) (uid : String) : List PConv :=
  st.filter (fun c => c.uid = uid)

/-- Deletion of a conversation row by id (SQL delete where id matches). -/
def deleteConvById (st : List PConv) (cid : String) : List PConv :=
  st.filter (fun c => c.id ≠ cid)

/-- Model of the conversation-limit enforcement: when the user holds at
least the maximum, sort the user rows by the stamp key ascending (Python
list sort is stable, modelled by a stable insertion sort) and delete the
oldest rows until the count is one below the maximum. -/
def enforceConversationLimit (st : List PConv) (uid : String) (maxc : Nat) :
    List PConv :=
  let convs := userConvsP st uid
  if maxc ≤ convs.length then
    let sorted := List.insertionSort (fun a b => sortKeyP a ≤ sortKeyP b) convs
    let toDelete := sorted.take (convs.length - maxc + 1)
    toDelete.foldl (fun s c => deleteConvById s c.id) st
  else st

/-- Model of create_conversation in postgres_auth_service: enforce the
limit first, then insert the new row with equal creation and update
stamps. -/
def createConversationP (st : List PConv) (uid title newId : String)
    (now maxc : Nat) : List PConv :=
  enforceConversationLimit st uid maxc ++
    [{ id := newId, uid := uid, title := title,
       created_at := now, updated_at := some now }]

/-! Concrete payloads of the normalization claims. -/

/-- Agent-shape payload of the step-marker normalization claim. -/
def c1AgentInput : SdkResponse :=
  { predictions := some (.dict [("output", .list [
      .dict [("content", .list [
        .dict [("type", .str "text"), ("text", .str "Step 1: Do X")],
        .dict [("type", .str "text"), ("text", .str " then Step 2: Do Y")]])]])]),
    reprStr := "PredictionsResponse" }

/-- Chat-completion-shape payload of the reference-marker claim. -/
def c4ChatInput : SdkResponse :=
  { predictions := some (.list [
      .dict [("choices", .list [
        .dict [("message", .dict [("content", .str "Hello [^a1-2] world")])]])]]),
    reprStr := "PredictionsResponse" }

/-- Agent-shape payload whose only text fragment is the empty string. -/
def c2EmptyInput : SdkResponse :=
  { predictions := some (.dict [("output", .list [
      .dict [("content", .list [.dict [("text", .str "")]])]])]),
    reprStr := "PredictionsResponse" }

/-- C1 counterexample: on the agent-shape input with fragments
(Step 1: Do X) and ( then Step 2: Do Y), normalization does not return the
claimed string (1. Do X then 2. Do Y), because the Step pattern is anchored
at line start without the MULTILINE flag and so never rewrites the mid-line
second marker. -/
theorem C1_counterexample :
    msgText (queryNormalize agentTaskType c1AgentInput) ≠ some "1. Do X then 2. Do Y" := by
  decide

/-- C1 amended: the same input normalizes to (1. Do X then Step 2: Do Y):
the fragments are joined with a single space, the double space collapses,
and only the line-leading step marker is reformatted. -/
theorem C1_agent_normalization :
    queryNormalize agentTaskType c1AgentInput =
      [("assistant", PyVal.str "1. Do X then Step 2: Do Y")] := by
  rfl

/-- C4: the chat-completion-shape input with content (Hello [^a1-2] world)
normalizes to (Hello world): the extraction takes
predictions[0].choices[0].message.content, the reference marker is stripped
and the resulting double space collapses. -/
theorem C4_chat_normalization :
    queryNormalize "llm/v1/chat" c4ChatInput =
      [("assistant", PyVal.str "Hello world")] := by
  rfl

/-- C2 counterexample: an agent response whose only text fragment is the
empty string normalizes to the empty string itself — not to a non-empty
reply from a catalog of fallback messages (no such catalog exists in the
extraction code). -/
theorem C2_counterexample :
    msgText (queryNormalize agentTaskType c2EmptyInput) = some "" := by
  decide

/-- C2 amended: normalization never raises and always yields exactly one
assistant message, for every task type and every response payload; but the
content may be empty (see the counterexample) and no fallback catalog is
consulted. -/
theorem C2_normalize_total :
    ∀ (taskType : String) (res : SdkResponse),
      ∃ c, queryNormalize taskType res = [("assistant", c)] := by
  intro taskType res
  unfold queryNormalize processAgentRes processChatRes
  split
  · split <;> exact ⟨_, rfl⟩
  · split <;> exact ⟨_, rfl⟩

/-- C3 counterexample: on a nonempty message whose endpoint call raises with
text (boom), the chat endpoint answers with the raw string (Error: boom) —
a propagated error rendering, not a canned message, and with no disclaimer
suffix appended (none exists in the code). -/
theorem C3_counterexample :
    chat_endpoint "Hi" (Except.error "boom") = ChatResult.reply "Error: boom" := by
  decide

/-- C3 amended: for every nonempty message the chat endpoint returns a
normal reply and never propagates an exception from the LLM call (query_llm
catches them all), but on an LLM failure the reply text is the raw
error-prefixed exception text; no disclaimer is appended to any reply. -/
theorem C3_chat_reply_on_failure :
    ∀ (message : String) (outcome : Except String String),
      pyStripStr message ≠ "" →
      ∃ s, chat_endpoint message outcome = ChatResult.reply s ∧
        (∀ e, outcome = Except.error e → s = "Error: " ++ e) := by
  intro message outcome h
  unfold chat_endpoint query_llm
  rw [if_neg h, if_neg h]
  match outcome with
  | .ok content => exact ⟨content, rfl, by intro e he; cases he⟩
  | .error e => exact ⟨"Error: " ++ e, rfl, by intro e' he'; cases he'; rfl⟩

/-- C3 witness: instantiation at a concrete nonempty message and a concrete
endpoint failure. -/
theorem C3_witness :
    pyStripStr "Hello" ≠ "" ∧
      ∃ s, chat_endpoint "Hello" (Except.error "timeout") = ChatResult.reply s ∧
        (∀ e, (Except.error "timeout" : Except String String) = Except.error e →
          s = "Error: " ++ e) :=
  ⟨by decide, C3_chat_reply_on_failure "Hello" (Except.error "timeout") (by decide)⟩

/-- C6: updating a conversation returns none (the NotFound result) and
leaves the store untouched whenever no stored conversation carries both the
requested id and exactly the requesting email — in particular when the id
exists under a different owner. -/
theorem C6_update_ownership_isolation {μ : Type} :
    ∀ (st : List (MConv μ)) (cid email : String) (title : Option String)
      (msgs : Option (List μ)) (now : String),
      (∀ c ∈ st, c.id = cid → c.user_email ≠ email) →
      mockUpdateConversation st cid email title msgs now = (none, st) := by
  intro st cid email title msgs now h
  unfold mockUpdateConversation
  cases hf : st.find? (fun c => c.id = cid) with
  | none => rfl
  | some conv =>
      have hmem := List.mem_of_find?_eq_some hf
      have hid : conv.id = cid := by simpa using List.find?_some hf
      dsimp only
      rw [if_pos (h conv hmem hid)]

/-- Store of the C6 witness: one conversation owned by alice. -/
def c6Store : List (MConv String) :=
  [{ id := "c1", title := "T", user_email := "alice@x", messages := ["m"],
     created_at := "t0", updated_at := "t1" }]

/-- C6 witness: the id exists but under a different owner, and the update
by bob returns none with the store unchanged. -/
theorem C6_witness :
    mockUpdateConversation c6Store "c1" "bob@x" none none "t2" = (none, c6Store) :=
  C6_update_ownership_isolation c6Store "c1" "bob@x" none none "t2" (by decide)

/-- C8: every successful update preserves the id, the owner email and the
creation stamp of the stored conversation, refreshes updated_at to the
current stamp, changes title and messages only to the requested values, and
rewrites only that record in the store. -/
theorem C8_update_frame {μ : Type} :
    ∀ (st : List (MConv μ)) (cid email : String) (title : Option String)
      (msgs : Option (List μ)) (now : String) (c' : MConv μ) (st' : List (MConv μ)),
      mockUpdateConversation st cid email title msgs now = (some c', st') →
      ∃ c, st.find? (fun x => x.id = cid) = some c ∧ c.user_email = email ∧
        c'.id = c.id ∧ c'.user_email = c.user_email ∧ c'.created_at = c.created_at ∧
        c'.updated_at = now ∧ c'.title = title.getD c.title ∧
        c'.messages = msgs.getD c.messages ∧ st' = dictSet st c' := by
  intro st cid email title msgs now c' st' h
  unfold mockUpdateConversation at h
  cases hf : st.find? (fun c => c.id = cid) with
  | none => rw [hf] at h; cases h
  | some conv =>
      rw [hf] at h
      dsimp only at h
      by_cases hne : conv.user_email ≠ email
      · rw [if_pos hne] at h; cases h
      · rw [if_neg hne] at h
        simp only [Prod.mk.injEq] at h
        obtain ⟨h1, h2⟩ := h
        cases Option.some.inj h1
        exact ⟨conv, rfl, not_not.mp hne, rfl, rfl, rfl, rfl, rfl, rfl, h2.symm⟩

/-- Store of the C8 witness: two conversations with different owners. -/
def c8Store : List (MConv String) :=
  [{ id := "c1", title := "T1", user_email := "alice@x", messages := ["m"],
     created_at := "t0", updated_at := "t1" },
   { id := "c2", title := "T2", user_email := "bob@x", messages := [],
     created_at := "t0", updated_at := "t1" }]

/-- Record produced by the C8 witness update. -/
def c8Upd : MConv String :=
  { id := "c1", title := "New", user_email := "alice@x", messages := ["m"],
    created_at := "t0", updated_at := "t9" }

/-- C8 witness: a concrete successful update, with the frame conclusion
instantiated. -/
theorem C8_witness :
    ∃ c, c8Store.find? (fun x => x.id = "c1") = some c ∧ c.user_email = "alice@x" ∧
      c8Upd.id = c.id ∧ c8Upd.user_email = c.user_email ∧
      c8Upd.created_at = c.created_at ∧ c8Upd.updated_at = "t9" ∧
      c8Upd.title = (some "New").getD c.title ∧
      c8Upd.messages = (none : Option (List String)).getD c.messages ∧
      dictSet c8Store c8Upd = dictSet c8Store c8Upd :=
  C8_update_frame c8Store "c1" "alice@x" (some "New") none "t9" c8Upd
    (dictSet c8Store c8Upd) (by decide)

/-- C7: when the stored ids are unique (they are dict keys), cleanup deletes
exactly the conversations of the given owner whose message list is empty —
keeping every conversation with messages and every conversation of another
owner — and reports exactly the number deleted. -/
theorem C7_cleanup_exact {μ : Type} :
    ∀ (st : List (MConv μ)) (email : String),
      (st.map (fun c => c.id)).Nodup →
      mockCleanupEmptyConversations st email =
        ((st.filter (isEmptyConvOf email)).length,
         st.filter (fun c => !(isEmptyConvOf email c))) := by
  intro st email hnd
  unfold mockCleanupEmptyConversations
  dsimp only
  have key : ∀ c ∈ st,
      ((st.filter (isEmptyConvOf email)).map (fun x => x.id)).contains c.id =
        isEmptyConvOf email c := by
    intro c hc
    rw [Bool.eq_iff_iff]
    constructor
    · intro hcont
      obtain ⟨d, hdmem, hdid⟩ := List.mem_map.mp (List.elem_iff.mp hcont)
      have hdst : d ∈ st := (List.mem_filter.mp hdmem).1
      have hdemp : isEmptyConvOf email d = true := (List.mem_filter.mp hdmem).2
      have hdc : d = c := List.inj_on_of_nodup_map hnd hdst hc hdid
      rwa [hdc] at hdemp
    · intro hemp
      exact List.elem_iff.mpr
        (List.mem_map.mpr ⟨c, List.mem_filter.mpr ⟨hc, hemp⟩, rfl⟩)
  congr 1
  · exact List.length_map _ _
  · exact List.filter_congr (fun c hc => by rw [key c hc])

/-- Store of the C7 witness: five conversations of one user, two of them
with an empty message list, plus none of another owner touched. -/
def c7Store : List (MConv String) :=
  [{ id := "c1", title := "A", user_email := "u@x", messages := ["m1"],
     created_at := "t0", updated_at := "t1" },
   { id := "c2", title := "B", user_email := "u@x", messages := [],
     created_at := "t0", updated_at := "t2" },
   { id := "c3", title := "C", user_email := "u@x", messages := ["m2", "m3"],
     created_at := "t0", updated_at := "t3" },
   { id := "c4", title := "D", user_email := "u@x", messages := [],
     created_at := "t0", updated_at := "t4" },
   { id := "c5", title := "E", user_email := "u@x", messages := ["m4"],
     created_at := "t0", updated_at := "t5" }]

/-- C7 witness: on the five-conversation store the cleanup deletes exactly
the two empty conversations and returns two. -/
theorem C7_witness :
    mockCleanupEmptyConversations c7Store "u@x" =
      (2, [c7Store[0], c7Store[2], c7Store[4]]) :=
  (C7_cleanup_exact c7Store "u@x" (by decide)).trans (by decide)

/-- C9: creating a conversation and then listing the conversations of the
same owner yields a list containing the created record, whose title and
message sequence are exactly the requested ones and whose creation and
update stamps coincide. -/
theorem C9_create_then_list {μ : Type} :
    ∀ (st : List (MConv μ)) (email title : String) (msgs : List μ) (cid now : String),
      (mockCreateConversation st email title msgs cid now).1 ∈
        mockGetUserConversations (mockCreateConversation st email title msgs cid now).2 email ∧
      (mockCreateConversation st email title msgs cid now).1.title = title ∧
      (mockCreateConversation st email title msgs cid now).1.messages = msgs ∧
      (mockCreateConversation st email title msgs cid now).1.created_at =
        (mockCreateConversation st email title msgs cid now).1.updated_at := by
  intro st email title msgs cid now
  refine ⟨?_, rfl, rfl, rfl⟩
  unfold mockCreateConversation mockGetUserConversations dictSet
  dsimp only
  rw [(List.perm_insertionSort _ _).mem_iff, List.mem_filter]
  refine ⟨?_, by simp⟩
  split
  · next h =>
      obtain ⟨x, hx, hxid⟩ := List.any_eq_true.mp h
      exact List.mem_map.mpr ⟨x, hx, by rw [if_pos (of_decide_eq_true hxid)]⟩
  · exact List.mem_append.mpr (Or.inr (List.mem_singleton.mpr rfl))

/-- C10: the list service catches every store exception and returns the
empty list, so it never propagates an error; the request layer therefore
always serves the service result and its volatile-store fallback branch is
unreachable on the list path, and a store failure is indistinguishable from
a user with no conversations. -/
theorem C10_list_swallows_store_errors {μ : Type} :
    ∀ (o : ListOutcome (MConv μ)) (volatile : List (MConv μ)) (email : String),
      ∃ l, conversationServiceList o = Except.ok l ∧
        appGetConversations o volatile email = l ∧
        (∀ e, o = ListOutcome.raised e → l = []) := by
  intro o volatile email
  cases o with
  | userMissing => exact ⟨[], rfl, rfl, by intro e he; cases he⟩
  | rows l => exact ⟨l, rfl, rfl, by intro e he; cases he⟩
  | raised e => exact ⟨[], rfl, rfl, by intro e' he'; rfl⟩

/-- C10 witness: instantiation at a raising store, a nonempty volatile
store and a concrete email; the served list is empty and the volatile store
is ignored. -/
theorem C10_witness :
    ∃ l, conversationServiceList (ListOutcome.raised (α := MConv String) "db down") =
        Except.ok l ∧
      appGetConversations (ListOutcome.raised "db down") c7Store "u@x" = l ∧
      (∀ e, (ListOutcome.raised (α := MConv String) "db down") = ListOutcome.raised e →
        l = []) :=
  C10_list_swallows_store_errors (ListOutcome.raised "db down") c7Store "u@x"

/-- Folding the per-row deletions over a list of rows filters the store by
exclusion of every deleted id. -/
theorem foldl_deleteConvById (ds : List PConv) (s : List PConv) :
    ds.foldl (fun acc c => deleteConvById acc c.id) s =
      s.filter (fun c => ds.all (fun d => decide (c.id ≠ d.id))) := by
  induction ds generalizing s with
  | nil => simp
  | cons d ds ih =>
      rw [List.foldl_cons, ih]
      unfold deleteConvById
      rw [List.filter_filter]
      exact List.filter_congr (fun c hc => by simp [Bool.and_comm])

/-- C5: with unique row ids, whenever a user holds at least the maximum
number of conversations, limit enforcement deletes the oldest rows by the
update-stamp key until exactly maximum minus one remain, and the subsequent
creation leaves the user with exactly the maximum — the count never exceeds
it. -/
theorem C5_limit_enforcement :
    ∀ (st : List PConv) (uid title newId : String) (now maxc : Nat),
      (st.map (fun c => c.id)).Nodup →
      1 ≤ maxc →
      maxc ≤ (userConvsP st uid).length →
      (userConvsP (enforceConversationLimit st uid maxc) uid).length = maxc - 1 ∧
      (userConvsP (createConversationP st uid title newId now maxc) uid).length = maxc := by
  intro st uid title newId now maxc hnd hmax hlen
  have hperm : (List.insertionSort (fun a b => sortKeyP a ≤ sortKeyP b)
      (userConvsP st uid)).Perm (userConvsP st uid) :=
    List.perm_insertionSort _ _
  set u := userConvsP st uid with hu
  set srt := List.insertionSort (fun a b => sortKeyP a ≤ sortKeyP b) u with hsrt
  set k := u.length - maxc + 1 with hk
  set td := srt.take k with htd
  set qd : PConv → Bool := fun c => td.all (fun d => decide (c.id ≠ d.id)) with hqd
  have hndu : (u.map (fun c => c.id)).Nodup :=
    ((List.filter_sublist st).map _).nodup hnd
  have hnds : (srt.map (fun c => c.id)).Nodup := ((hperm.map _).nodup_iff).mpr hndu
  have hsplit : td ++ srt.drop k = srt := List.take_append_drop k srt
  have hdisj : (td.map (fun c => c.id)).Disjoint ((srt.drop k).map (fun c => c.id)) := by
    have h2 : ((td ++ srt.drop k).map (fun c => c.id)).Nodup := by rw [hsplit]; exact hnds
    rw [List.map_append] at h2
    exact (List.nodup_append.mp h2).2.2
  have hmain : (userConvsP (enforceConversationLimit st uid maxc) uid).length = maxc - 1 := by
    have henf : enforceConversationLimit st uid maxc =
        td.foldl (fun s c => deleteConvById s c.id) st := by
      unfold enforceConversationLimit
      rw [← hu, if_pos hlen]
    rw [henf, foldl_deleteConvById]
    have hcomm : userConvsP (st.filter qd) uid = u.filter qd := by
      rw [hu]
      unfold userConvsP
      rw [List.filter_filter, List.filter_filter]
      exact List.filter_congr (fun c hc => Bool.and_comm _ _)
    rw [hcomm]
    have hlq : (u.filter qd).length = (srt.filter qd).length :=
      ((hperm.filter qd).length_eq).symm
    have htdnil : td.filter qd = [] := by
      rw [List.filter_eq_nil_iff]
      intro c hc hq
      have := List.all_eq_true.mp hq c hc
      exact absurd rfl (of_decide_eq_true this)
    have hdrop : (srt.drop k).filter qd = srt.drop k := by
      rw [List.filter_eq_self]
      intro c hc
      rw [hqd]
      refine List.all_eq_true.mpr (fun d hd => decide_eq_true (fun heq => ?_))
      exact hdisj (List.mem_map.mpr ⟨d, hd, rfl⟩)
        (List.mem_map.mpr ⟨c, hc, heq⟩)
    have hfs : srt.filter qd = srt.drop k := by
      rw [← hsplit, List.filter_append, htdnil, hdrop, List.nil_append]
      rw [hsplit]
    rw [hlq, hfs, List.length_drop, hperm.length_eq]
    omega
  refine ⟨hmain, ?_⟩
  unfold createConversationP userConvsP
  rw [List.filter_append]
  have hnew : List.filter (fun c => decide (c.uid = uid))
      [{ id := newId, uid := uid, title := title,
         created_at := now, updated_at := some now : PConv }] =
      [{ id := newId, uid := uid, title := title,
         created_at := now, updated_at := some now : PConv }] := by
    simp
  rw [hnew, List.length_append]
  have : (userConvsP (enforceConversationLimit st uid maxc) uid).length = maxc - 1 := hmain
  unfold userConvsP at this
  rw [this, List.length_singleton]
  omega

/-- Store of the C5 witness: three conversations of one user with distinct
update stamps. -/
def c5Store : List PConv :=
  [{ id := "a", uid := "u", title := "t1", created_at := 1, updated_at := some 10 },
   { id := "b", uid := "u", title := "t2", created_at := 2, updated_at := some 5 },
   { id := "c", uid := "u", title := "t3", created_at := 3, updated_at := some 8 }]

/-- C5 witness: with a maximum of three and three existing conversations,
creating a fourth leaves exactly three, and the one with the oldest update
stamp (id b, stamp 5) is the one removed. -/
theorem C5_witness :
    (userConvsP (enforceConversationLimit c5Store "u" 3) "u").length = 3 - 1 ∧
      (userConvsP (createConversationP c5Store "u" "T" "d" 20 3) "u").length = 3 ∧
      createConversationP c5Store "u" "T" "d" 20 3 =
        [{ id := "a", uid := "u", title := "t1", created_at := 1, updated_at := some 10 },
         { id := "c", uid := "u", title := "t3", created_at := 3, updated_at := some 8 },
         { id := "d", uid := "u", title := "T", created_at := 20, updated_at := some 20 }] :=
  ⟨(C5_limit_enforcement c5Store "u" "T" "d" 20 3 (by decide) (by decide) (by decide)).1,
   (C5_limit_enforcement c5Store "u" "T" "d" 20 3 (by decide) (by decide) (by decide)).2,
   by decide⟩
